import Mathlib

/-!
Shallow embedding of `AuthService` (formater-auth-service-js).

The class in `src/unnamed/part_001` is a browser-side OAuth2/OIDC session
manager.  We model its mutable instance fields plus an explicit effect log
(issued network requests, armed interval timers, fired callbacks) in one
state record `Sess`.  Each method of the class becomes a pure function on
`Sess`; an asynchronous step (fetch, popup poll) is split into the
synchronous issue step and a named continuation that the theorems apply
explicitly, mirroring the promise callbacks of the source.  JS values the
code inspects dynamically are modelled by the inductive `JsVal`; JS
truthiness, `||`, property access and `Object.assign` are modelled by
`truthy`, `jsOr`, `jsGet` and `objAssign`.  A thrown JS exception is the
`Option String` component of `setToken`'s result (the error name), caught
by the promise `.catch` in `requestTokenOnJson`.
-/

namespace AuthFormater

/-- Model of the JS values (JSON payloads, messages, identities) that the
code inspects: strings, numbers, booleans and objects as key/value lists. -/
inductive JsVal where
  | str : String → JsVal
  | num : Int → JsVal
  | boolean : Bool → JsVal
  | obj : List (String × JsVal) → JsVal

/-- JS truthiness of a value. -/
def truthy : JsVal → Bool
  | JsVal.str s => s != ""
  | JsVal.num n => n != 0
  | JsVal.boolean b => b
  | JsVal.obj _ => true

/-- JS truthiness where `none` stands for `undefined` / `null`. -/
def truthyOpt : Option JsVal → Bool
  | none => false
  | some v => truthy v

/-- JS `a || b`: the first operand when truthy, otherwise the second. -/
def jsOr (a b : Option JsVal) : Option JsVal :=
  if truthyOpt a then a else b

/-- Property lookup on the key/value list of an object. -/
def jsGetList : List (String × JsVal) → String → Option JsVal
  | [], _ => none
  | (k, v) :: rest, key => if k == key then some v else jsGetList rest key

/-- JS property access `v[key]`; `undefined` (`none`) off objects. -/
def jsGet : JsVal → String → Option JsVal
  | JsVal.obj l, key => jsGetList l key
  | _, _ => none

/-- JS strict equality `v === s` between a possibly-undefined value and a
string, as used for `event.data.state === this._state`. -/
def stateMatches : Option JsVal → String → Bool
  | some (JsVal.str a), b => a == b
  | _, _ => false

/-- Numeric view of a value; `none` when the value is not a number
(arithmetic on it would produce `NaN`, which is falsy downstream). -/
def asNum : Option JsVal → Option Int
  | some (JsVal.num n) => some n
  | _ => none

/-- String view of a value, for endpoint fields filled from discovery. -/
def asStrOpt : Option JsVal → Option String
  | some (JsVal.str s) => some s
  | _ => none

/-- JS string coercion of a possibly-null value in a concatenation. -/
def valToStr : Option JsVal → String
  | none => "null"
  | some (JsVal.str s) => s
  | some (JsVal.num n) => toString n
  | some (JsVal.boolean true) => "true"
  | some (JsVal.boolean false) => "false"
  | some (JsVal.obj _) => "[object Object]"

/-- JS string coercion of a possibly-null string field. -/
def optStr : Option String → String
  | none => "null"
  | some s => s

/-- Update-or-append of a key in an object's key/value list. -/
def assocSet (l : List (String × JsVal)) (k : String) (v : JsVal) :
    List (String × JsVal) :=
  if l.any (fun p => p.1 == k) then
    l.map (fun p => if p.1 == k then (k, v) else p)
  else l ++ [(k, v)]

/-- `Object.assign(target, source)` for the object/object case used by the
code (identity merge in `_requestUserInfo`); other targets are returned
unchanged. -/
def objAssign : JsVal → JsVal → JsVal
  | JsVal.obj a, JsVal.obj b => JsVal.obj (b.foldl (fun acc p => assocSet acc p.1 p.2) a)
  | a, _ => a

/-- Substring test on character lists, for `String.prototype.indexOf(x) >= 0`. -/
def containsSub : List Char → List Char → Bool
  | [], sub => sub.isEmpty
  | c :: rest, sub => sub.isPrefixOf (c :: rest) || containsSub rest sub

/-- `s.indexOf(sub) >= 0` on JS strings. -/
def containsSubstring (s sub : String) : Bool :=
  containsSub s.toList sub.toList

/-- JS truthiness of a nullable string field (`null` and `''` are falsy). -/
def truthyStrOpt : Option String → Bool
  | none => false
  | some u => u != ""

/-- `url.substr(-1) != '/'` test from the constructor and
`_requestOpenidEndpoints`: the last character is a slash. -/
def lastIsSlash (u : String) : Bool :=
  match u.toList.getLast? with
  | some c => c == '/'
  | none => false

/-- The trailing-slash normalization applied to provider base URLs. -/
def addSlash (u : String) : String :=
  if lastIsSlash u then u else u ++ "/"

/-- The base64 alphabet of `btoa`. -/
def b64Alphabet : List Char :=
  "ABCDEFGHIJKLMNOPQRSTUVWXYZabcdefghijklmnopqrstuvwxyz0123456789+/".toList

/-- Sextet to base64 character. -/
def b64Char (n : Nat) : Char := b64Alphabet.getD n 'A'

/-- Base64 of a byte list, three bytes to four characters, `=`-padded. -/
def b64Chunks : List Nat → List Char
  | [] => []
  | [a] => [b64Char (a / 4), b64Char (a % 4 * 16), '=', '=']
  | [a, b] => [b64Char (a / 4), b64Char (a % 4 * 16 + b / 16), b64Char (b % 16 * 4), '=']
  | a :: b :: c :: rest =>
      b64Char (a / 4) :: b64Char (a % 4 * 16 + b / 16) ::
      b64Char (b % 16 * 4 + c / 64) :: b64Char (c % 64) :: b64Chunks rest

/-- Browser `btoa` on the (Latin-1) code points of a string. -/
def btoa (s : String) : String :=
  String.mk (b64Chunks (s.toList.map Char.toNat))

/-- The `.replace(/=|\+|\//gm, '0')` cleanup applied to `btoa` output in
`_initState`. -/
def cleanB64 (s : String) : String :=
  String.mk (s.toList.map (fun c => if c == '=' || c == '+' || c == '/' then '0' else c))

/-- Hexadecimal digit characters. -/
def hexDigits : List Char := "0123456789ABCDEF".toList

/-- Two-digit uppercase hex of a byte. -/
def toHex2 (n : Nat) : List Char :=
  [hexDigits.getD (n / 16) '0', hexDigits.getD (n % 16) '0']

/-- UTF-8 bytes of a character, for percent-encoding. -/
def utf8Bytes (c : Char) : List Nat :=
  let n := c.toNat
  if n < 128 then [n]
  else if n < 2048 then [192 + n / 64, 128 + n % 64]
  else if n < 65536 then [224 + n / 4096, 128 + n / 64 % 64, 128 + n % 64]
  else [240 + n / 262144, 128 + n / 4096 % 64, 128 + n / 64 % 64, 128 + n % 64]

/-- JS `encodeURIComponent`: unreserved characters kept, the rest
percent-encoded byte by byte. -/
def encURIComp (s : String) : String :=
  String.mk (s.toList.foldr (fun c acc =>
    if c.isAlphanum || c == '-' || c == '_' || c == '.' || c == '!' || c == '~' ||
       c == '*' || c == '(' || c == ')' || c == Char.ofNat 39 then c :: acc
    else (utf8Bytes c).foldr (fun b a => '%' :: (toHex2 b ++ a)) acc) [])

/-- Body of an issued POST, either a form-encoded string or the field list
of a `JSON.stringify`-ed object. -/
inductive ReqBody where
  | form : String → ReqBody
  | jsonFields : List (String × String) → ReqBody
  deriving DecidableEq

/-- One issued network request or opened window, recorded in order. -/
inductive Request where
  | tokenExchange : String → ReqBody → Request
  | userinfo : String → Option String → Bool → Request
  | discovery : String → Request
  | logoutBT : String → String → Request
  | logoutBC : String → Request
  | popupOpen : String → Request
  deriving DecidableEq

/-- The class-level static configuration shared across instances:
`AuthService._redirectUri` and `AuthService._redirectUriLogout`. -/
structure Globals where
  redirectUri : Option String
  redirectUriLogout : Option String

/-- The per-instance configuration object passed to the constructor
(fields absent in JS are `none`; `keycloakUrl` presence models
`hasOwnProperty('keycloakUrl')`). -/
structure ConfigIn where
  keycloakUrl : Option String
  openidUrl : Option String
  clientId : Option String
  method : Option String
  typeName : Option String
  authUrl : Option String
  tokenUrl : Option String
  refreshUrl : Option String
  userinfoUrl : Option String
  logoutUrl : Option String
  lifetime : Option Nat
  sso : Option String
  iframeCfg : Bool

/-- The empty configuration object. -/
def ConfigIn.empty : ConfigIn :=
  ⟨none, none, none, none, none, none, none, none, none, none, none, none, false⟩

/-- The whole observable state of one `AuthService` instance: its mutable
fields, the registered-callback flags, and the effect log (issued
requests, live interval timers, callback-firing counters). -/
structure Sess where
  -- merged `_config`
  method : String
  typeName : String
  authUrl : Option String
  tokenUrl : Option String
  refreshUrl : Option String
  userinfoUrl : Option String
  logoutUrl : Option String
  clientId : Option String
  lifetime : Option Nat
  sso : Option String
  iframeCfg : Bool
  -- instance fields
  id : String
  state : String
  nonce : String
  token : Option JsVal
  refreshToken : Option JsVal
  identity : Option JsVal
  expire : Option Int
  timer : Option Nat
  iframe : Bool
  popup : Bool
  codeListener : Bool
  rejectFlag : Bool
  -- `_callback` registration flags
  cbAuth : Bool
  cbLogout : Bool
  cbError : Bool
  -- effect log
  liveTimers : List Nat
  nextTimer : Nat
  requests : List Request
  authFired : Nat
  logoutFired : Nat
  errorsFired : List String
  promiseResolves : Nat
  promiseRejects : List String

/-- `setInterval`: a fresh handle becomes live and is stored in `_timer`. -/
def armTimer (s : Sess) : Sess :=
  { s with timer := some s.nextTimer,
           liveTimers := s.liveTimers ++ [s.nextTimer],
           nextTimer := s.nextTimer + 1 }

/-- `_triggerError(name)`: invoke the error callback when registered. -/
def triggerError (name : String) (s : Sess) : Sess :=
  if s.cbError then { s with errorsFired := s.errorsFired ++ [name] } else s

/-- `_resetUser()`: cancel the interval, null out identity, expiry, token
and refresh token, and invoke the logout callback when registered. -/
def resetUser (s : Sess) : Sess :=
  let s1 :=
    match s.timer with
    | some h => { s with liveTimers := s.liveTimers.filter (fun x => x != h) }
    | none => s
  let s2 := { s1 with timer := none, identity := none, expire := none,
                      token := none, refreshToken := none }
  if s2.cbLogout then { s2 with logoutFired := s2.logoutFired + 1 } else s2

/-- The lifetime milliseconds chosen by `_setUserCredentials`: the
configured truthy `lifetime` in seconds, else the 20-minute default. -/
def lifetimeMs (s : Sess) : Int :=
  match s.lifetime with
  | some n => if n != 0 then (n : Int) * 1000 else 1200000
  | none => 1200000

/-- `_setUserCredentials(data)`: with an email the data becomes the
identity, the token becomes the boolean sentinel `true`, and the
authenticated callback and a fresh interval are guarded by `!this._timer`. -/
def setUserCredentials (data : JsVal) (s : Sess) : Sess :=
  if truthyOpt (jsGet data "email") then
    let s1 := { s with identity := some data, token := some (JsVal.boolean true) }
    let s2 := { s1 with expire := some (lifetimeMs s1) }
    let s3 := if s2.timer.isNone && s2.cbAuth then
                { s2 with authFired := s2.authFired + 1 } else s2
    if s3.timer.isNone then armTimer s3 else s3
  else s

/-- How the `resolve` argument threaded through `_requestUserInfo` was
obtained: the registered `authenticated` callback, or the resolver of the
promise returned by `getUserInfo`. -/
inductive CbRef where
  | auth : CbRef
  | ext : CbRef

/-- `_requestUserInfo` up to its `fetch`: guard on a missing userinfo URL
(`NO_USERINFO_URL`), guard on a missing token for bearer methods
(`NOT_AUTHENTICATED` — note the source compares against the literal
`'credentials'`), then record the userinfo request with its Authorization
header or ambient credentials. -/
def requestUserInfo (hasReject : Bool) (s : Sess) : Sess :=
  if !truthyStrOpt s.userinfoUrl then
    if hasReject then { s with promiseRejects := s.promiseRejects ++ ["NO_USERINFO_URL"] }
    else s
  else if s.method != "apache" && s.method != "credentials" && !truthyOpt s.token then
    if hasReject then { s with promiseRejects := s.promiseRejects ++ ["NOT_AUTHENTICATED"] }
    else s
  else
    let req :=
      if s.method == "apache" then Request.userinfo (optStr s.userinfoUrl) none true
      else Request.userinfo (optStr s.userinfoUrl) (some ("Bearer " ++ valToStr s.token)) false
    { s with requests := s.requests ++ [req] }

/-- Continuation of `_requestUserInfo` on a JSON response: merge
`json.profile || json` into the (possibly empty) identity, then call the
captured `resolve` (`none` models a null callback, whose invocation throws
inside the swallowed promise after the merge). -/
def userInfoOnJson (json : JsVal) (resolve : Option CbRef) (s : Sess) : Sess :=
  let base := match s.identity with
              | none => JsVal.obj []
              | some i => i
  let src := match jsOr (jsGet json "profile") (some json) with
             | some v => v
             | none => json
  let s1 := { s with identity := some (objAssign base src) }
  match resolve with
  | some CbRef.auth => { s1 with authFired := s1.authFired + 1 }
  | some CbRef.ext => { s1 with promiseResolves := s1.promiseResolves + 1 }
  | none => s1

/-- `_requestToken(code)` up to its `fetch`: the dead `_reject` guard, then
the method-dependent request shape recorded as a `tokenExchange`. -/
def requestToken (g : Globals) (code : Option JsVal) (s : Sess) : Sess :=
  if s.rejectFlag then s
  else
    let body :=
      if s.method == "backend-token" then
        ReqBody.jsonFields [("code", valToStr code), ("state", s.state),
          ("clientId", optStr s.clientId), ("redirectUri", optStr g.redirectUri)]
      else if s.method == "backend-credentials" then
        ReqBody.form ("code=" ++ valToStr code ++ "&clientId=" ++ optStr s.clientId ++
          "&redirectUri=" ++ encURIComp (optStr g.redirectUri) ++ "&nonce=" ++ btoa s.nonce ++
          (match s.sso with
           | some v => if v != "" then "&sso=" ++ v else ""
           | none => ""))
      else if s.method == "public" then
        ReqBody.form ("code=" ++ valToStr code ++ "&grant_type=authorization_code" ++
          "&client_id=" ++ optStr s.clientId ++
          "&redirect_uri=" ++ encURIComp (optStr g.redirectUri))
      else ReqBody.form ""
    { s with requests := s.requests ++ [Request.tokenExchange (optStr s.tokenUrl) body] }

/-- `_logout()`: the method switch that issues the logout request; the
`public` case opens the logout popup and starts the close poll; a method
with no case (notably `apache`) leaves the instance untouched. -/
def logoutNet (g : Globals) (s : Sess) : Sess :=
  if s.method == "backend-token" then
    { s with requests := s.requests ++
        [Request.logoutBT (optStr s.logoutUrl) ("Bearer " ++ valToStr s.token)] }
  else if s.method == "backend-credentials" then
    { s with requests := s.requests ++ [Request.logoutBC (optStr s.logoutUrl)] }
  else if s.method == "public" then
    let url := optStr s.logoutUrl ++ "?client_id=" ++ optStr s.clientId ++
      "&redirect_uri=" ++ encURIComp (optStr g.redirectUriLogout)
    { s with popup := true, requests := s.requests ++ [Request.popupOpen url] }
  else s

/-- `logout(second)`: with a logout URL and `second` unset, delegate to
`_logout()`; otherwise reset the user. -/
def logout (g : Globals) (second : Bool) (s : Sess) : Sess :=
  if !second && truthyStrOpt s.logoutUrl then logoutNet g s
  else resetUser s

/-- Settlement of the backend `_logout` fetch: both the fulfilled and the
rejected handler call `logout(true)`. -/
def logoutNetSettle (g : Globals) (s : Sess) : Sess :=
  logout g true s

/-- Firing of the `public`-logout poll once the popup is closed:
`popup = null` then `logout(true)`. -/
def logoutPopupClosed (g : Globals) (s : Sess) : Sess :=
  logout g true { s with popup := false }

/-- `remove()`: reset the user, detach the message listener and drop any
hidden iframe. -/
def remove (s : Sess) : Sess :=
  let s1 := resetUser s
  { s1 with codeListener := false, iframe := false }

/-- `getEmail()`: the identity's `email` when the identity and that field
are truthy, else `null`. -/
def getEmail (s : Sess) : Option JsVal :=
  match s.identity with
  | some i => if truthy i && truthyOpt (jsGet i "email") then jsGet i "email" else none
  | none => none

/-- `on(eventName, callback)`: register a callback for one of the three
known event names. -/
def onEvent (eventName : String) (s : Sess) : Sess :=
  if eventName == "authenticated" then { s with cbAuth := true }
  else if eventName == "logout" then { s with cbLogout := true }
  else if eventName == "error" then { s with cbError := true }
  else s

/-- The expiry-and-timer tail of `_setToken` once `obj` (the decoded JWT)
is defined: remaining-lifetime from `obj.exp` clamped at 30 minutes, then
an `expires_in` override, then an interval armed whenever the expiry is
truthy.  A non-numeric claim makes the JS arithmetic `NaN` (falsy),
modelled as `none`. -/
def setTokenExpiry (now : Int) (data obj : JsVal) (s : Sess) : Sess :=
  let s1 :=
    if truthyOpt (jsGet obj "exp") then
      match asNum (jsGet obj "exp") with
      | some e =>
          let ex := e * 1000 - now
          { s with expire := some (if ex > 1800000 then 1800000 else ex) }
      | none => { s with expire := none }
    else s
  let s2 :=
    if truthyOpt (jsGet data "expires_in") then
      match asNum (jsGet data "expires_in") with
      | some n => { s1 with expire := some (n * 1000) }
      | none => { s1 with expire := none }
    else s1
  match s2.expire with
  | some e => if e != 0 then armTimer s2 else s2
  | none => s2

/-- `_setToken(data)`.  Email data goes to `_setUserCredentials`.  Token
data stores token and refresh token, then either decodes the identity
token (`data.id_token || data.token`) and fires `authenticated`, or falls
back to `_requestUserInfo` with the authenticated callback — in which case
the subsequent unguarded `obj.exp` access throws a `TypeError` (returned
as the second component, as is an `InvalidTokenError` from `jwt_decode`).
Data with neither goes to `this.logout()`. -/
def setToken (g : Globals) (dec : String → Option JsVal) (now : Int)
    (data : JsVal) (s : Sess) : Sess × Option String :=
  if truthyOpt (jsGet data "email") then
    (setUserCredentials data s, none)
  else if truthyOpt (jsOr (jsGet data "token") (jsGet data "access_token")) then
    let tok := jsOr (jsGet data "token") (jsGet data "access_token")
    let s1 := { s with token := tok }
    let s2 := { s1 with refreshToken :=
                  if truthyOpt (jsGet data "refresh_token") then jsGet data "refresh_token"
                  else tok }
    if truthyOpt (jsOr (jsGet data "id_token") (jsGet data "token")) then
      let jwtVal := if truthyOpt (jsGet data "id_token") then jsGet data "id_token"
                    else jsGet data "token"
      match jwtVal with
      | some (JsVal.str t) =>
        match dec t with
        | some obj =>
          let idv := jsOr (jsGet obj "data") (some obj)
          let s3 := { s2 with identity := if truthyOpt idv then idv else none }
          let s4 := if s3.cbAuth then { s3 with authFired := s3.authFired + 1 } else s3
          (setTokenExpiry now data obj s4, none)
        | none => (s2, some "InvalidTokenError")
      | _ => (s2, some "InvalidTokenError")
    else
      (requestUserInfo false s2, some "TypeError")
  else
    (logout g false s, none)

/-- The `.then`/`.catch` chain of `_requestToken`: apply `_setToken` to the
response JSON and route a thrown error to `_triggerError`. -/
def requestTokenOnJson (g : Globals) (dec : String → Option JsVal) (now : Int)
    (data : JsVal) (s : Sess) : Sess :=
  match setToken g dec now data s with
  | (s1, none) => s1
  | (s1, some err) => triggerError err s1

/-- `_receiveMessage(event)`: the `apache` origin-checked branch feeds
email payloads to `_setToken`; every other message is accepted only with a
truthy `code` and a `state` strictly equal to the instance's correlation
token, in which case the code is exchanged and the hidden iframe dropped. -/
def receiveMessage (g : Globals) (dec : String → Option JsVal) (now : Int)
    (origin : String) (msgData : JsVal) (s : Sess) : Sess :=
  if s.method == "apache" && containsSubstring (optStr s.authUrl) origin then
    if truthyOpt (jsGet msgData "email") then (setToken g dec now msgData s).1 else s
  else
    if truthyOpt (jsGet msgData "code") && stateMatches (jsGet msgData "state") s.state then
      let s1 := requestToken g (jsGet msgData "code") s
      if s1.iframe then { s1 with iframe := false } else s1
    else s

/-- `_requestOpenidEndpoints(url)` up to its `fetch`: mark the type
`openid` and record the discovery request at the normalized URL (note the
source appends `'/.well-known/...'` with its own leading slash). -/
def requestOpenidEndpoints (url : String) (s : Sess) : Sess :=
  let s1 := { s with typeName := "openid" }
  let u := addSlash url ++ "/.well-known/openid-configuration"
  { s1 with requests := s1.requests ++ [Request.discovery u] }

/-- Rejection handler of the discovery fetch: `_triggerError('INVALID_OPENID')`;
the chained `.then` then receives `undefined` and writes nothing. -/
def openidOnFailure (s : Sess) : Sess :=
  triggerError "INVALID_OPENID" s

/-- Fulfilled continuation of the discovery fetch: endpoints are populated
only when the JSON carries a truthy `authorization_endpoint`; otherwise
nothing happens. -/
def openidOnJson (json : JsVal) (s : Sess) : Sess :=
  if truthy json && truthyOpt (jsGet json "authorization_endpoint") then
    { s with authUrl := asStrOpt (jsGet json "authorization_endpoint"),
             tokenUrl := asStrOpt (jsGet json "token_endpoint"),
             refreshUrl := asStrOpt (jsGet json "token_endpoint"),
             userinfoUrl := asStrOpt (jsGet json "userinfo_endpoint"),
             logoutUrl := asStrOpt (jsGet json "end_session_endpoint") }
  else s

/-- `_initState(id)`: nonce from the identifier, month and day-of-month,
correlation state from `'app_fmt' + id`; the computed year is unused in
the source. -/
def initState (id : String) (month day : Nat) (s : Sess) : Sess :=
  let str := id ++ "_" ++ toString month ++ "_" ++ toString day
  { s with nonce := cleanB64 (btoa str),
           state := cleanB64 (btoa ("app_fmt" ++ id)) }

/-- The constructor.  `Object.assign` of the defaults with the passed
configuration, then the keycloak endpoint template (chosen whenever the
configuration or the static class field carries a keycloak URL), else the
openid discovery request when `openidUrl` is truthy, then `_initState`.
The date is passed as (0-based month, day-of-month). -/
def construct (staticKc : Option String) (id : String) (cfg : ConfigIn)
    (month day : Nat) : Sess :=
  let base : Sess :=
    { method := cfg.method.getD "public"
      typeName := cfg.typeName.getD "keycloak"
      authUrl := cfg.authUrl
      tokenUrl := cfg.tokenUrl
      refreshUrl := cfg.refreshUrl
      userinfoUrl := cfg.userinfoUrl
      logoutUrl := cfg.logoutUrl
      clientId := cfg.clientId
      lifetime := cfg.lifetime
      sso := cfg.sso
      iframeCfg := cfg.iframeCfg
      id := id
      state := ""
      nonce := ""
      token := none
      refreshToken := none
      identity := none
      expire := none
      timer := none
      iframe := false
      popup := false
      codeListener := false
      rejectFlag := false
      cbAuth := false
      cbLogout := false
      cbError := false
      liveTimers := []
      nextTimer := 1
      requests := []
      authFired := 0
      logoutFired := 0
      errorsFired := []
      promiseResolves := 0
      promiseRejects := [] }
  let s1 :=
    if cfg.keycloakUrl.isSome || truthyStrOpt staticKc then
      let ku := match cfg.keycloakUrl with
                | some k => k
                | none => optStr staticKc
      let ku := addSlash ku
      { base with typeName := "keycloak",
                  authUrl := some (ku ++ "protocol/openid-connect/auth"),
                  tokenUrl := some (ku ++ "protocol/openid-connect/token"),
                  refreshUrl := some (ku ++ "protocol/openid-connect/token"),
                  userinfoUrl := some (ku ++ "protocol/openid-connect/userinfo"),
                  logoutUrl := some (ku ++ "protocol/openid-connect/logout") }
    else
      match cfg.openidUrl with
      | some ou => if ou != "" then requestOpenidEndpoints ou base else base
      | none => base
  initState id month day s1

/-- The logged-out shape of the session state: token, refresh token,
identity and the timer field all null. -/
def unauthenticated (s : Sess) : Prop :=
  s.token = none ∧ s.refreshToken = none ∧ s.identity = none ∧ s.timer = none

/-- The interval handle stored before a transition is no longer live after
it. -/
def timerCancelled (old new : Sess) : Prop :=
  match old.timer with
  | some h => h ∉ new.liveTimers
  | none => True

/- Concrete scenario fixtures used by the closed theorems and witnesses. -/

/-- Static redirect configuration of the example scenarios. -/
def gEx : Globals := ⟨some "https://app/login", some "https://app/login"⟩

/-- A `public`-method keycloak configuration. -/
def cfgPublicEx : ConfigIn :=
  { ConfigIn.empty with keycloakUrl := some "https://kc",
                        method := some "public", clientId := some "c" }

/-- A `public` session with an `authenticated` handler registered. -/
def sPublicEx : Sess := onEvent "authenticated" (construct none "myid" cfgPublicEx 0 1)

/-- A decode environment with no decodable tokens. -/
def decNone : String → Option JsVal := fun _ => none

/-- A decode environment where the identity token `"J"` decodes to an
empty payload. -/
def decEmptyJ : String → Option JsVal :=
  fun t => if t == "J" then some (JsVal.obj []) else none

/-- A decode environment where `"J"` decodes to a payload carrying a large
`exp` claim. -/
def decExpJ : String → Option JsVal :=
  fun t => if t == "J" then some (JsVal.obj [("exp", JsVal.num 100000)]) else none

/-- A token-exchange response with a token, a decodable identity token and
`expires_in`. -/
def dataTokEx : JsVal :=
  JsVal.obj [("access_token", JsVal.str "t1"), ("id_token", JsVal.str "J"),
             ("expires_in", JsVal.num 60)]

/-- An `apache` configuration that carries a logout URL. -/
def cfgApacheEx : ConfigIn :=
  { ConfigIn.empty with method := some "apache",
                        authUrl := some "https://gw/auth",
                        logoutUrl := some "https://gw/out" }

/-- An authenticated `apache` session (identity delivered by the gateway
message). -/
def sApacheAuthed : Sess :=
  setUserCredentials (JsVal.obj [("email", JsVal.str "x@y.com")])
    (construct none "ap" cfgApacheEx 0 1)

/-- A never-authenticated `apache` session with a `logout` handler. -/
def sApacheFresh : Sess := onEvent "logout" (construct none "ap" cfgApacheEx 0 1)

/-- A `backend-token` configuration with a logout URL. -/
def cfgBackendTokenEx : ConfigIn :=
  { ConfigIn.empty with method := some "backend-token",
                        logoutUrl := some "https://b/out",
                        tokenUrl := some "https://b/tok",
                        userinfoUrl := some "https://b/ui" }

/-- An authenticated `backend-token` session. -/
def sBackendTokenEx : Sess :=
  setUserCredentials (JsVal.obj [("email", JsVal.str "x@y.com")])
    (construct none "b" cfgBackendTokenEx 0 1)

/-- An openid-discovery configuration. -/
def cfgOpenidEx : ConfigIn :=
  { ConfigIn.empty with openidUrl := some "https://op",
                        method := some "public", clientId := some "c" }

/-- A discovery-configured session with an `error` handler registered. -/
def sOpenidEx : Sess := onEvent "error" (construct none "op" cfgOpenidEx 0 1)

/-- The authorization-result message of the C5 scenario. -/
def msgEx : JsVal :=
  JsVal.obj [("code", JsVal.str "abc"), ("state", JsVal.str sPublicEx.state)]

/-- A message whose `state` does not match any session of the scenarios. -/
def msgBadState : JsVal :=
  JsVal.obj [("code", JsVal.str "abc"), ("state", JsVal.str "wrong")]

/-- The C5 exchange response: bearer and refresh token, `expires_in`, no
identity token. -/
def respEx : JsVal :=
  JsVal.obj [("access_token", JsVal.str "t1"), ("refresh_token", JsVal.str "r1"),
             ("expires_in", JsVal.num 60)]

/-- The session after the C5 message and exchange response. -/
def sAfterExchange : Sess :=
  requestTokenOnJson gEx decNone 0 respEx
    (receiveMessage gEx decNone 0 "https://app" msgEx sPublicEx)

/-- The session after the C5 userinfo response resolves the authenticated
callback. -/
def sAfterUserinfo : Sess :=
  userInfoOnJson (JsVal.obj [("email", JsVal.str "a@b.com")]) (some CbRef.auth)
    sAfterExchange

/- Helper lemmas. -/

/-- `_resetUser` always lands in the logged-out shape. -/
theorem resetUser_unauth (s : Sess) : unauthenticated (resetUser s) := by
  unfold unauthenticated resetUser
  cases h : s.timer <;> cases hc : s.cbLogout <;> simp [h, hc]

/-- `_resetUser` removes the stored interval handle from the live set; the
lemma is stated against any intermediate state that kept the original
timer fields. -/
theorem resetUser_cancel (old s : Sess) (ht : s.timer = old.timer)
    (hl : s.liveTimers = old.liveTimers) : timerCancelled old (resetUser s) := by
  unfold timerCancelled resetUser
  cases h : old.timer with
  | none => simp
  | some a =>
    rw [ht, h, hl]
    cases hc : s.cbLogout <;> simp [List.mem_filter]

/-- The `_logout` request switch does not touch the timer fields. -/
theorem logoutNet_timer (g : Globals) (s : Sess) :
    (logoutNet g s).timer = s.timer ∧ (logoutNet g s).liveTimers = s.liveTimers := by
  unfold logoutNet
  split
  · simp
  · split
    · simp
    · split <;> simp

/-- `_resetUser` fires the registered logout callback exactly once. -/
theorem resetUser_fires (s : Sess) (h : s.cbLogout = true) :
    (resetUser s).logoutFired = s.logoutFired + 1 := by
  unfold resetUser
  cases ht : s.timer <;> simp [h]

/-- C1 counterexample: for the `apache` method with a configured logout
URL, `logout()` reaches the `_logout` switch, which has no `apache` case,
so the authenticated session is left completely untouched — token still
the boolean sentinel, timer still armed — contradicting the claim that
`logout()` always ends unauthenticated even when no request branch
matches the method. -/
theorem C1_counterexample :
    logout gEx false sApacheAuthed = sApacheAuthed
  ∧ sApacheAuthed.token = some (JsVal.boolean true)
  ∧ sApacheAuthed.timer = some 1 :=
  ⟨rfl, rfl, rfl⟩

/-- C1 (amended): `logout()` ends in the unauthenticated state — token,
refresh token, identity and timer all null and the stored interval handle
cancelled — for the three methods that have a `_logout` request branch
(`backend-token` and `backend-credentials` once the logout fetch settles,
fulfilled or rejected; `public` once the logout popup closes), and
directly for any method whose logout URL is not set; the `apache` method
with a logout URL has no branch and `logout()` is then a no-op. -/
theorem C1_amended (g : Globals) (s : Sess) :
    ((s.method = "backend-token" ∨ s.method = "backend-credentials") →
      truthyStrOpt s.logoutUrl = true →
      unauthenticated (logoutNetSettle g (logout g false s)) ∧
      timerCancelled s (logoutNetSettle g (logout g false s)))
  ∧ (s.method = "public" → truthyStrOpt s.logoutUrl = true →
      unauthenticated (logoutPopupClosed g (logout g false s)) ∧
      timerCancelled s (logoutPopupClosed g (logout g false s)))
  ∧ (truthyStrOpt s.logoutUrl = false →
      unauthenticated (logout g false s) ∧ timerCancelled s (logout g false s)) := by
  refine ⟨?_, ?_, ?_⟩
  · intro _ hurl
    have h1 : logout g false s = logoutNet g s := by simp [logout, hurl]
    have h2 : logoutNetSettle g (logoutNet g s) = resetUser (logoutNet g s) := by
      simp [logoutNetSettle, logout]
    rw [h1, h2]
    exact ⟨resetUser_unauth _,
      resetUser_cancel s _ (logoutNet_timer g s).1 (logoutNet_timer g s).2⟩
  · intro _ hurl
    have h1 : logout g false s = logoutNet g s := by simp [logout, hurl]
    have h2 : logoutPopupClosed g (logoutNet g s)
        = resetUser { logoutNet g s with popup := false } := by
      simp [logoutPopupClosed, logout]
    rw [h1, h2]
    exact ⟨resetUser_unauth _,
      resetUser_cancel s _ (logoutNet_timer g s).1 (logoutNet_timer g s).2⟩
  · intro hurl
    have h1 : logout g false s = resetUser s := by simp [logout, hurl]
    rw [h1]
    exact ⟨resetUser_unauth _, resetUser_cancel s s rfl rfl⟩

/-- C1 amended witness: the amended theorem applied to the authenticated
`backend-token` session. -/
theorem C1_amended_witness :
    unauthenticated (logoutNetSettle gEx (logout gEx false sBackendTokenEx))
  ∧ timerCancelled sBackendTokenEx (logoutNetSettle gEx (logout gEx false sBackendTokenEx)) :=
  (C1_amended gEx sBackendTokenEx).1 (Or.inl rfl) rfl

/-- C9 counterexample: on a never-authenticated `apache` session with a
registered logout handler and a configured logout URL, `logout()` never
reaches `_resetUser` (the `_logout` switch has no `apache` case), so the
handler does not fire, contradicting the claim's `logout()` part. -/
theorem C9_counterexample :
    (logout gEx false sApacheFresh).logoutFired = 0
  ∧ sApacheFresh.cbLogout = true
  ∧ sApacheFresh.token = none
  ∧ logout gEx false sApacheFresh = sApacheFresh :=
  ⟨rfl, rfl, rfl, rfl⟩

/-- C9 (amended): every transition through `_resetUser` fires the
registered logout handler exactly once, even when the session is already
unauthenticated, and `remove()` therefore always fires it; `logout()`
also does except for the `apache` method with a configured logout URL,
where `_resetUser` is never reached. -/
theorem C9_amended (s : Sess) (h : s.cbLogout = true) :
    (resetUser s).logoutFired = s.logoutFired + 1
  ∧ (remove s).logoutFired = s.logoutFired + 1 := by
  refine ⟨resetUser_fires s h, ?_⟩
  show ({ resetUser s with codeListener := false, iframe := false } : Sess).logoutFired
      = s.logoutFired + 1
  simpa using resetUser_fires s h

/-- C9 amended witness: the amended theorem applied to the
never-authenticated `apache` session with a logout handler. -/
theorem C9_amended_witness :
    (resetUser sApacheFresh).logoutFired = sApacheFresh.logoutFired + 1
  ∧ (remove sApacheFresh).logoutFired = sApacheFresh.logoutFired + 1 :=
  C9_amended sApacheFresh rfl

/-- C2 counterexample: two consecutive successful token-based exchanges
(`_setToken` with a decodable identity token and `expires_in`) arm a
second interval without cancelling the first — handles 1 and 2 are both
live afterwards — contradicting the claim that any pair of consecutive
successful authentications leaves at most one live interval timer. -/
theorem C2_counterexample :
    ((setToken gEx decEmptyJ 0 dataTokEx
        (setToken gEx decEmptyJ 0 dataTokEx sPublicEx).1).1).liveTimers = [1, 2]
  ∧ ((setToken gEx decEmptyJ 0 dataTokEx sPublicEx).1).liveTimers = [1] :=
  ⟨rfl, rfl⟩

/-- C2 (amended): only the ambient-credentials path is guarded —
`_setUserCredentials` arms a timer only when `_timer` is unset, so an
authentication followed by an ambient-session probe leaves the live-timer
set unchanged; `_setToken`'s token branch arms unconditionally, so a
second token-based exchange duplicates the interval. -/
theorem C2_amended (data : JsVal) (s : Sess) (h : s.timer ≠ none) :
    (setUserCredentials data s).liveTimers = s.liveTimers
  ∧ (setUserCredentials data s).timer = s.timer := by
  obtain ⟨t, ht⟩ := Option.ne_none_iff_exists'.mp h
  unfold setUserCredentials
  split <;> simp [ht]

/-- C2 amended witness: a repeated ambient probe on the already
authenticated `apache` session arms nothing. -/
theorem C2_amended_witness :
    (setUserCredentials (JsVal.obj [("email", JsVal.str "x@y.com")]) sApacheAuthed).liveTimers
      = sApacheAuthed.liveTimers
  ∧ (setUserCredentials (JsVal.obj [("email", JsVal.str "x@y.com")]) sApacheAuthed).timer
      = sApacheAuthed.timer :=
  C2_amended (JsVal.obj [("email", JsVal.str "x@y.com")]) sApacheAuthed (by decide)

/-- C3: for a non-`apache` session, a message whose `state` payload field
is not strictly equal to the instance's correlation token leaves the whole
session state — every field, including the request log, timers and the
iframe — unchanged. -/
theorem C3_state_mismatch_no_effect (g : Globals) (dec : String → Option JsVal)
    (now : Int) (origin : String) (msgData : JsVal) (s : Sess)
    (hm : s.method ≠ "apache")
    (hs : stateMatches (jsGet msgData "state") s.state = false) :
    receiveMessage g dec now origin msgData s = s := by
  have h1 : (s.method == "apache") = false := beq_eq_false_iff_ne.mpr hm
  unfold receiveMessage
  simp [h1, hs]

/-- C3 witness: the mismatched-state message leaves the concrete `public`
session untouched. -/
theorem C3_witness :
    sPublicEx.method ≠ "apache"
  ∧ stateMatches (jsGet msgBadState "state") sPublicEx.state = false
  ∧ receiveMessage gEx decNone 0 "https://evil" msgBadState sPublicEx = sPublicEx :=
  ⟨by decide, rfl,
    C3_state_mismatch_no_effect gEx decNone 0 "https://evil" msgBadState sPublicEx
      (by decide) rfl⟩

/-- In the identity-token branch of `_setToken`, the resulting state is
`setTokenExpiry` applied to the decoded payload and some intermediate
state (the one that already stored token, refresh token and identity). -/
theorem setToken_idtoken_shape (g : Globals) (dec : String → Option JsVal)
    (now : Int) (s : Sess) (data : JsVal) (t j : String) (payload : JsVal)
    (hemail : jsGet data "email" = none)
    (htok : jsGet data "token" = none)
    (hacc : jsGet data "access_token" = some (JsVal.str t)) (ht : t ≠ "")
    (hid : jsGet data "id_token" = some (JsVal.str j)) (hj : j ≠ "")
    (hdec : dec j = some payload) :
    ∃ X : Sess, (setToken g dec now data s).1 = setTokenExpiry now data payload X := by
  have ht2 : (t != "") = true := bne_iff_ne.mpr ht
  have hj2 : (j != "") = true := bne_iff_ne.mpr hj
  simp only [setToken, hemail, htok, hacc, hid, hdec, jsOr, truthyOpt, truthy, ht2, hj2,
    Bool.false_eq_true, if_false, if_true, ite_true, ite_false]
  exact ⟨_, rfl⟩

/-- With a nonzero `exp` claim whose remaining lifetime exceeds 30
minutes and no `expires_in`, `setTokenExpiry` stores exactly 1800000 ms. -/
theorem setTokenExpiry_clamp (now : Int) (data obj : JsVal) (X : Sess) (e : Int)
    (hexp : jsGet obj "exp" = some (JsVal.num e)) (he : e ≠ 0)
    (hbig : e * 1000 - now > 1800000)
    (hnoin : jsGet data "expires_in" = none) :
    (setTokenExpiry now data obj X).expire = some 1800000 := by
  have he' : (e == 0) = false := beq_eq_false_iff_ne.mpr he
  simp [setTokenExpiry, hexp, hnoin, asNum, truthyOpt, truthy, he, he', hbig, armTimer]

/-- With a truthy `expires_in` of `m` seconds, `setTokenExpiry` stores
exactly `m * 1000` ms, whatever the `exp` claim produced. -/
theorem setTokenExpiry_override (now : Int) (data obj : JsVal) (X : Sess) (m : Int)
    (hin : jsGet data "expires_in" = some (JsVal.num m)) (hm : m ≠ 0) :
    (setTokenExpiry now data obj X).expire = some (m * 1000) := by
  have hm' : (m == 0) = false := beq_eq_false_iff_ne.mpr hm
  have hm1000 : (m * 1000 == 0) = false :=
    beq_eq_false_iff_ne.mpr (mul_ne_zero hm (by norm_num))
  simp [setTokenExpiry, hin, asNum, truthyOpt, truthy, hm, hm', hm1000, armTimer]

/-- C4: in a token-exchange response with a decodable identity token whose
`exp` claim leaves more than 30 minutes of remaining lifetime, the stored
expiry is exactly 1800000 ms; and when the response also carries a truthy
`expires_in`, the stored expiry is exactly `expires_in * 1000` ms,
overriding the clamped value. -/
theorem C4_expiry_clamp_override (g : Globals) (dec : String → Option JsVal)
    (now : Int) (s : Sess) (t j : String) (payload : JsVal) (e : Int)
    (ht : t ≠ "") (hj : j ≠ "") (hdec : dec j = some payload)
    (hexp : jsGet payload "exp" = some (JsVal.num e))
    (hnow : 0 ≤ now) (hbig : e * 1000 - now > 1800000) :
    (setToken g dec now
        (JsVal.obj [("access_token", JsVal.str t), ("id_token", JsVal.str j)]) s).1.expire
      = some 1800000
  ∧ ∀ m : Int, m ≠ 0 →
      (setToken g dec now
          (JsVal.obj [("access_token", JsVal.str t), ("id_token", JsVal.str j),
                      ("expires_in", JsVal.num m)]) s).1.expire
        = some (m * 1000) := by
  have he : e ≠ 0 := by intro h0; subst h0; omega
  constructor
  · obtain ⟨X, hX⟩ := setToken_idtoken_shape g dec now s
      (JsVal.obj [("access_token", JsVal.str t), ("id_token", JsVal.str j)])
      t j payload rfl rfl rfl ht rfl hj hdec
    rw [hX]
    exact setTokenExpiry_clamp now _ payload X e hexp he hbig rfl
  · intro m hm
    obtain ⟨X, hX⟩ := setToken_idtoken_shape g dec now s
      (JsVal.obj [("access_token", JsVal.str t), ("id_token", JsVal.str j),
                  ("expires_in", JsVal.num m)])
      t j payload rfl rfl rfl ht rfl hj hdec
    rw [hX]
    exact setTokenExpiry_override now _ payload X m rfl hm

/-- C4 witness: with `exp = 100000` (remaining 100000000 ms) the expiry is
clamped to 1800000 ms, and `expires_in = 600` overrides it to 600000 ms. -/
theorem C4_witness :
    (setToken gEx decExpJ 0
        (JsVal.obj [("access_token", JsVal.str "t1"), ("id_token", JsVal.str "J")])
        sPublicEx).1.expire = some 1800000
  ∧ (setToken gEx decExpJ 0
        (JsVal.obj [("access_token", JsVal.str "t1"), ("id_token", JsVal.str "J"),
                    ("expires_in", JsVal.num 600)]) sPublicEx).1.expire = some 600000 := by
  have h := C4_expiry_clamp_override gEx decExpJ 0 sPublicEx "t1" "J"
    (JsVal.obj [("exp", JsVal.num 100000)]) 100000
    (by decide) (by decide) rfl rfl (by norm_num) (by norm_num)
  exact ⟨h.1, by simpa using h.2 600 (by norm_num)⟩

/-- C5: in the `public` scenario — matching-state code message, exchange
response `{access_token: 't1', refresh_token: 'r1', expires_in: 60}` with
no `id_token` — the session issues a userinfo request with header
`Bearer t1`, and after the userinfo response `{email: 'a@b.com'}` the
identity is exactly that object and the authenticated callback has fired
exactly once (starting from zero). -/
theorem C5_public_userinfo_fallback :
    (sAfterExchange.requests.any (fun r =>
        match r with
        | Request.userinfo u h _ =>
            u == "https://kc/protocol/openid-connect/userinfo" && h == some "Bearer t1"
        | _ => false)) = true
  ∧ sAfterUserinfo.identity = some (JsVal.obj [("email", JsVal.str "a@b.com")])
  ∧ sAfterUserinfo.authFired = 1
  ∧ sPublicEx.authFired = 0 :=
  ⟨rfl, rfl, rfl, rfl⟩

/-- The character list of an appended slash. -/
theorem toList_append_slash (b : String) : (b ++ "/").toList = b.toList ++ ['/'] := by
  cases b
  rfl

/-- A URL with an appended slash passes the trailing-slash test. -/
theorem lastIsSlash_append (b : String) : lastIsSlash (b ++ "/") = true := by
  unfold lastIsSlash
  rw [toList_append_slash]
  simp

/-- A URL with an appended slash is nonempty. -/
theorem append_slash_ne_empty (b : String) : (b ++ "/") ≠ "" := by
  intro h
  have h2 := congrArg String.toList h
  rw [toList_append_slash] at h2
  simp at h2

/-- `addSlash` sends both a slash-less URL and its slashed form to the
slashed form. -/
theorem addSlash_append (b : String) (h : lastIsSlash b = false) :
    addSlash b = b ++ "/" ∧ addSlash (b ++ "/") = b ++ "/" := by
  unfold addSlash
  rw [h, lastIsSlash_append]
  simp

/-- C6: for a nonempty provider base URL without a trailing slash,
construction with the bare URL and with the slashed URL produce identical
sessions — all five derived keycloak endpoints agree, and on the discovery
path the recorded discovery-request URL (and everything else) agrees. -/
theorem C6_trailing_slash (staticKc : Option String) (id : String)
    (cfg : ConfigIn) (m d : Nat) (b : String)
    (h1 : lastIsSlash b = false) (h2 : b ≠ "") :
    construct staticKc id { cfg with keycloakUrl := some b } m d
      = construct staticKc id { cfg with keycloakUrl := some (b ++ "/") } m d
  ∧ construct none id { cfg with keycloakUrl := none, openidUrl := some b } m d
      = construct none id { cfg with keycloakUrl := none, openidUrl := some (b ++ "/") } m d := by
  obtain ⟨ha1, ha2⟩ := addSlash_append b h1
  have hb : (b != "") = true := bne_iff_ne.mpr h2
  have hb2 : ((b ++ "/") != "") = true := bne_iff_ne.mpr (append_slash_ne_empty b)
  constructor
  · unfold construct
    simp [ha1, ha2]
  · unfold construct
    simp [hb, hb2, requestOpenidEndpoints, ha1, ha2]

/-- C6 witness: the round trip at the concrete base URL `https://kc`. -/
theorem C6_trailing_slash_witness :
    construct none "x" { ConfigIn.empty with keycloakUrl := some "https://kc" } 0 1
      = construct none "x" { ConfigIn.empty with keycloakUrl := some ("https://kc" ++ "/") } 0 1
  ∧ construct none "x" { ConfigIn.empty with keycloakUrl := none, openidUrl := some "https://kc" } 0 1
      = construct none "x"
          { ConfigIn.empty with keycloakUrl := none, openidUrl := some ("https://kc" ++ "/") }
          0 1 :=
  C6_trailing_slash none "x" ConfigIn.empty 0 1 "https://kc" (by decide) (by decide)

/-- C7 counterexample: a malformed discovery response (`{}`, no
`authorization_endpoint`) fires no error at all — in particular not the
claimed `INVALID_PROVIDER_METADATA` — and a network failure fires the
error named `INVALID_OPENID`, not `INVALID_PROVIDER_METADATA`; the
endpoint fields do stay null. -/
theorem C7_counterexample :
    (openidOnJson (JsVal.obj []) sOpenidEx).errorsFired = []
  ∧ (openidOnJson (JsVal.obj []) sOpenidEx).authUrl = none
  ∧ (openidOnFailure sOpenidEx).errorsFired = ["INVALID_OPENID"] :=
  ⟨rfl, rfl, rfl⟩

/-- C7 (amended): when the discovery fetch fails at the network level the
session surfaces the error named `INVALID_OPENID` through the error
callback and leaves every endpoint field as it was (null after a
discovery construction); a malformed response without an
`authorization_endpoint` is silently ignored, leaving the whole session
unchanged and surfacing no error. -/
theorem C7_amended (s : Sess) (json : JsVal) (hcb : s.cbError = true)
    (hmal : truthyOpt (jsGet json "authorization_endpoint") = false) :
    (openidOnFailure s).errorsFired = s.errorsFired ++ ["INVALID_OPENID"]
  ∧ (openidOnFailure s).authUrl = s.authUrl
  ∧ (openidOnFailure s).tokenUrl = s.tokenUrl
  ∧ (openidOnFailure s).refreshUrl = s.refreshUrl
  ∧ (openidOnFailure s).userinfoUrl = s.userinfoUrl
  ∧ (openidOnFailure s).logoutUrl = s.logoutUrl
  ∧ openidOnJson json s = s := by
  refine ⟨?_, ?_, ?_, ?_, ?_, ?_, ?_⟩ <;>
    simp [openidOnFailure, triggerError, hcb, openidOnJson, hmal]

/-- C7 amended witness: the amended behavior at the concrete
discovery-configured session with an error handler. -/
theorem C7_amended_witness :
    (openidOnFailure sOpenidEx).errorsFired = sOpenidEx.errorsFired ++ ["INVALID_OPENID"]
  ∧ (openidOnFailure sOpenidEx).authUrl = sOpenidEx.authUrl
  ∧ (openidOnFailure sOpenidEx).tokenUrl = sOpenidEx.tokenUrl
  ∧ (openidOnFailure sOpenidEx).refreshUrl = sOpenidEx.refreshUrl
  ∧ (openidOnFailure sOpenidEx).userinfoUrl = sOpenidEx.userinfoUrl
  ∧ (openidOnFailure sOpenidEx).logoutUrl = sOpenidEx.logoutUrl
  ∧ openidOnJson (JsVal.obj []) sOpenidEx = sOpenidEx :=
  C7_amended sOpenidEx (JsVal.obj []) rfl rfl

/-- C8 counterexample: two sessions with the same identifier constructed
on different dates (month 0 day 1 versus month 5 day 6 — dates distinct,
as their nonces differ) have EQUAL correlation-token `state` values,
contradicting the claim that different dates give different states:
`_state` is computed from `'app_fmt' + id` only. -/
theorem C8_counterexample :
    (construct none "x" cfgPublicEx 0 1).state = (construct none "x" cfgPublicEx 5 6).state
  ∧ (construct none "x" cfgPublicEx 0 1).nonce ≠ (construct none "x" cfgPublicEx 5 6).nonce :=
  ⟨rfl, by decide⟩

/-- C8 (amended): `state` and `nonce` are deterministic — equal identifier
and equal construction date give equal `state` and equal `nonce` — but
`state` depends on the identifier alone, so it is equal across any two
construction dates. -/
theorem C8_amended (staticKc : Option String) (id : String) (cfg : ConfigIn)
    (m d m' d' : Nat) :
    (construct staticKc id cfg m d).state = (construct staticKc id cfg m' d').state
  ∧ (m = m' → d = d' →
      (construct staticKc id cfg m d).nonce = (construct staticKc id cfg m' d').nonce) := by
  constructor
  · rfl
  · intro h1 h2
    subst h1
    subst h2
    rfl

/-- C8 amended witness: date-independence of `state` and determinism of
`nonce` at concrete inputs. -/
theorem C8_amended_witness :
    (construct none "w" cfgPublicEx 0 1).state = (construct none "w" cfgPublicEx 5 6).state
  ∧ (construct none "w" cfgPublicEx 0 1).nonce = (construct none "w" cfgPublicEx 0 1).nonce :=
  ⟨(C8_amended none "w" cfgPublicEx 0 1 5 6).1,
   (C8_amended none "w" cfgPublicEx 0 1 0 1).2 rfl rfl⟩

/-- C10: `getEmail()` returns the identity's `email` field exactly when a
non-null identity carries a truthy `email`, and `null` when the identity
is null or its `email` field is absent or falsy; the function is total,
so it never throws. -/
theorem C10_getEmail (s : Sess) :
    (∀ i e, s.identity = some i → truthy i = true → jsGet i "email" = some e →
        truthy e = true → getEmail s = some e)
  ∧ (s.identity = none → getEmail s = none)
  ∧ (∀ i, s.identity = some i → truthyOpt (jsGet i "email") = false →
        getEmail s = none) := by
  refine ⟨?_, ?_, ?_⟩
  · intro i e hid hti hie hte
    simp [getEmail, hid, hti, hie, truthyOpt, hte]
  · intro hid
    simp [getEmail, hid]
  · intro i hid hf
    simp [getEmail, hid, hf]

/-- C10 witness: the email of the C5 scenario's final identity. -/
theorem C10_getEmail_witness : getEmail sAfterUserinfo = some (JsVal.str "a@b.com") :=
  (C10_getEmail sAfterUserinfo).1 (JsVal.obj [("email", JsVal.str "a@b.com")])
    (JsVal.str "a@b.com") rfl rfl rfl rfl

end AuthFormater
